import Mathlib

/-!
Verification of the `Model` class of `sage_analysis` (`src/sage_analysis/model.py`):
a shallow embedding of the property store, the initialisation routines, the
validated property setters, and the per-snapshot aggregation engine
`calc_properties_all_files`, together with theorems settling the specification
claims.

Embedding conventions: Python floats are embedded as exact rationals (`ℚ`),
numpy arrays as lists of rationals, Python dictionaries as functions into
`Option`, and a raised exception as an explicit error value (the check in each
setter precedes the assignment in the source, so on the error path the returned
state is the unmodified input state).  The external data classes (out of scope
collaborators) enter through the `DataSource` structure; the observable actions
of the engine (batch reads, calculation-function invocations, progress-bar
opening, file closing) are recorded in an event trace so that invocation
protocols can be stated.
-/

namespace SageAnalysis

/-- A Python scalar value, as it appears in keyword-argument bundles. -/
inductive PyVal
  | num (q : ℚ)
  | bool (b : Bool)
  | str (s : String)

/-- A `**kwargs` bundle bound to a calculation function. -/
abbrev KwArgs := List (String × PyVal)

/-- A batch of galaxy records (`gals`) as handed to calculation functions.
Its contents are opaque to the engine. -/
abbrev Batch := List ℚ

/-- A value stored in the property store: a numpy array
(`np.zeros(...)`, `np.array([])`) or a float (`0.0`). -/
inductive PropValue
  | arr (xs : List ℚ)
  | scalar (x : ℚ)

/-- An inner dictionary of the property store: property name to accumulator. -/
abbrev PropDict := String → Option PropValue

/-- `self._properties = defaultdict(dict)` — outer key is `"snapshot_XX"`. -/
abbrev PropStore := String → Option PropDict

def emptyPropDict : PropDict := fun _ => none

/-- Reading `self._properties[k]`: because the store is a `defaultdict(dict)`,
a missing outer key yields the empty dictionary instead of raising `KeyError`. -/
def defaultdictGet (st : PropStore) (k : String) : PropDict :=
  (st k).getD emptyPropDict

/-- Accumulator lookup `self.properties[s][p]`.  `none` models the `KeyError`
raised by the inner, plain dictionary for a never-initialized property name. -/
def storeGet (st : PropStore) (s p : String) : Option PropValue :=
  defaultdictGet st s p

/-- The assignment `self.properties[s][p] = v` (the outer `defaultdict`
materialises the inner dictionary if absent, then sets the inner key). -/
def storeSet (st : PropStore) (s p : String) (v : PropValue) : PropStore :=
  fun s2 =>
    if s2 = s then
      some (fun p2 => if p2 = p then some v else defaultdictGet st s p2)
    else st s2

/-- The f-string `f"snapshot_{snapshot}"` used as outer key. -/
def snapKey (snapshot : Nat) : String := "snapshot_" ++ toString snapshot

/-- The loop `for my_property in property_names: self.properties[key][my_property] = v`
shared by the three `init_*` methods. -/
def initProps (st : PropStore) (s : String) (names : List String) (v : PropValue) :
    PropStore :=
  names.foldl (fun acc q => storeSet acc s q v) st

/-- `np.arange(start, stop, step)` for positive `step`, over exact rationals:
the elements `start + i * step` for `0 ≤ i < ⌈(stop - start) / step⌉`. -/
def arange (start stop step : ℚ) : List ℚ :=
  (List.range (Int.toNat ⌈(stop - start) / step⌉)).map
    (fun (i : Nat) => start + (i : ℚ) * step)

/-- The state of a `Model` object.  Fields assigned by `__init__` come first;
`box_size`, `volume`, `snapshot` and `num_gals_all_files` are attributes that
other code creates later (`none` models the attribute not yet existing). -/
structure Model where
  sage_file : String
  IMF : String
  label : Option String
  sage_output_format : Option String
  first_file_to_analyze : Option Int
  last_file_to_analyze : Option Int
  num_sage_output_files : Option Int
  random_seed : Option Int
  plot_toggles : List (String × Bool)
  plots_that_need_smf : List String
  sample_size : Nat
  sSFRcut : ℚ
  bins : String → Option (List ℚ)
  props : PropStore
  box_size : Option ℚ
  volume : Option ℚ
  snapshot : Option Nat
  num_gals_all_files : Option Nat

/-- `Model.__init__`: stores every argument (note that the `IMF` argument is
written directly to `self._IMF`, bypassing the validating property setter),
initialises `_bins = {}` and `_properties = defaultdict(dict)`, and raises
`RuntimeError` for binary output missing the file count or the file range. -/
def modelInit (sage_file : String) (sage_output_format : Option String)
    (label : Option String)
    (first_file_to_analyze last_file_to_analyze : Option Int)
    (num_sage_output_files : Option Int) (random_seed : Option Int) (IMF : String)
    (plot_toggles : List (String × Bool)) (plots_that_need_smf : List String)
    (sample_size : Nat) (sSFRcut : ℚ) : Except String Model :=
  if num_sage_output_files = none ∧ sage_output_format = some "sage_binary" then
    Except.error "RuntimeError: number of output files must be specified"
  else if (first_file_to_analyze = none ∨ last_file_to_analyze = none)
      ∧ sage_output_format = some "sage_binary" then
    Except.error "RuntimeError: first and last output file must be specified"
  else
    Except.ok
      { sage_file := sage_file
        IMF := IMF
        label := label
        sage_output_format := sage_output_format
        first_file_to_analyze := first_file_to_analyze
        last_file_to_analyze := last_file_to_analyze
        num_sage_output_files := num_sage_output_files
        random_seed := random_seed
        plot_toggles := plot_toggles
        plots_that_need_smf := plots_that_need_smf
        sample_size := sample_size
        sSFRcut := sSFRcut
        bins := fun _ => none
        props := fun _ => none
        box_size := none
        volume := none
        snapshot := none
        num_gals_all_files := none }

/-- The `volume` property setter: raises `ValueError` when the assigned volume
exceeds `pow(self.box_size, 3)` (the check precedes the assignment, so the
previously stored volume is untouched on the error path); reading `box_size`
before it exists raises `AttributeError`. -/
def Model.setVolume (m : Model) (vol : ℚ) : Model × Option String :=
  match m.box_size with
  | none => (m, some "AttributeError")
  | some b =>
    if vol > b ^ 3 then (m, some "ValueError")
    else ({ m with volume := some vol }, none)

/-- `allowed_IMF = ["Chabrier", "Salpeter"]` from the `IMF` setter. -/
def allowed_IMF : List String := ["Chabrier", "Salpeter"]

/-- The `IMF` property setter: raises `ValueError` for a label outside
`allowed_IMF` (before assigning), otherwise stores the label. -/
def Model.setIMF (m : Model) (imf : String) : Model × Option String :=
  if imf ∉ allowed_IMF then (m, some "ValueError")
  else ({ m with IMF := imf }, none)

/-- `Model.init_binned_properties`: derives the bin edges with `np.arange`,
stores them under `bin_name`, and gives every listed property a zero-filled
accumulator of length `len(bins) - 1` under the snapshot key. -/
def Model.init_binned_properties (m : Model) (bin_low bin_high bin_width : ℚ)
    (bin_name : String) (property_names : List String) (snapshot : Nat) : Model :=
  let bins := arange bin_low (bin_high + bin_width) bin_width
  { m with
    bins := fun b => if b = bin_name then some bins else m.bins b
    props := initProps m.props (snapKey snapshot) property_names
      (PropValue.arr (List.replicate (bins.length - 1) 0)) }

/-- `Model.init_scatter_properties`: every listed property becomes the empty
array `np.array([])` under the snapshot key. -/
def Model.init_scatter_properties (m : Model) (property_names : List String)
    (snapshot : Nat) : Model :=
  { m with props := initProps m.props (snapKey snapshot) property_names (PropValue.arr []) }

/-- `Model.init_single_properties`: every listed property becomes the scalar
`0.0` under the snapshot key. -/
def Model.init_single_properties (m : Model) (property_names : List String)
    (snapshot : Nat) : Model :=
  { m with props := initProps m.props (snapKey snapshot) property_names (PropValue.scalar 0) }

/-- The narrow interface the engine consumes from a data class: the total
record count reported by `determine_num_gals`, and the per-file batches
returned by `read_gals` (with `none` the "file skipped" sentinel). -/
structure DataSource where
  numGals : Nat
  readGals : Int → Nat → Option Batch

/-- An observable action of the engine, recorded in order of occurrence. -/
inductive Event
  | readBatch (fileNum : Int)
  | call (fname : String) (gals : Batch) (snapshot : Nat) (kwargs : KwArgs)
  | openPbar (total : Nat)
  | closeFile

/-- One entry of `calculation_functions`: the toggle name (dictionary key), the
function itself, and its bound keyword arguments.  The Python dictionary is
iterated in insertion order, which the list order represents. -/
structure CalcEntry where
  fname : String
  impl : Model → Batch → Nat → KwArgs → Model
  kwargs : KwArgs

/-- `Model.calc_properties`: `for func, kwargs in calculation_functions.values():
func(self, gals, snapshot, **kwargs)`.  Returns the mutated model together with
the trace of invocations. -/
def Model.calc_properties (m : Model) (registry : List CalcEntry) (gals : Batch)
    (snapshot : Nat) : Model × List Event :=
  match registry with
  | [] => (m, [])
  | e :: rest =>
    let r := (e.impl m gals snapshot e.kwargs).calc_properties rest gals snapshot
    (r.1, Event.call e.fname gals snapshot e.kwargs :: r.2)

/-- Python `range(a, b)` over integers, ascending. -/
def intRange (a b : Int) : List Int :=
  (List.range (b - a).toNat).map (fun (i : Nat) => a + (i : Int))

/-- The progress-bar setup: `pbar = None` when `debug or not use_pbar`, a
`tqdm` bar when the package imported, and `None` (via the `NameError` handler)
when it did not. -/
def pbarEvents (debug use_pbar tqdm_available : Bool) (total : Nat) : List Event :=
  if debug || !use_pbar then []
  else if tqdm_available then [Event.openPbar total] else []

/-- The file loop of `calc_properties_all_files`: read the batch of each sub-file;
on the `None` sentinel `continue` to the next file index; otherwise hand the
batch to `calc_properties`. -/
def engineLoop (ds : DataSource) (registry : List CalcEntry) (snapshot : Nat)
    (m : Model) (files : List Int) : Model × List Event :=
  match files with
  | [] => (m, [])
  | f :: rest =>
    match ds.readGals f snapshot with
    | none =>
      let r := engineLoop ds registry snapshot m rest
      (r.1, Event.readBatch f :: r.2)
    | some gals =>
      let c := m.calc_properties registry gals snapshot
      let r := engineLoop ds registry snapshot c.1 rest
      (r.1, Event.readBatch f :: (c.2 ++ r.2))

/-- `Model.calc_properties_all_files`: positions the data source at the
snapshot (which sets `self._snapshot`), determines the galaxy count (which sets
`self._num_gals_all_files`), returns immediately when the count is zero,
otherwise opens the optional progress bar, loops over
`range(first_file_to_analyze, last_file_to_analyze + 1)` and, last, closes the
data source when `close_file` was requested.  `none` models the `TypeError`
Python would raise in `range` if either bound were `None`. -/
def Model.calc_properties_all_files (m : Model) (ds : DataSource)
    (registry : List CalcEntry) (snapshot : Nat)
    (close_file use_pbar debug tqdm_available : Bool) :
    Option (Model × List Event) :=
  match m.first_file_to_analyze, m.last_file_to_analyze with
  | some first, some last =>
    let m0 := { m with snapshot := some snapshot, num_gals_all_files := some ds.numGals }
    if ds.numGals = 0 then
      some (m0, [])
    else
      let r := engineLoop ds registry snapshot m0 (intRange first (last + 1))
      let evs := pbarEvents debug use_pbar tqdm_available ds.numGals ++ r.2
      some (r.1, if close_file then evs ++ [Event.closeFile] else evs)
  | _, _ => none

/-- Is this event a calculation-function invocation? -/
def isCall : Event → Bool
  | Event.call _ _ _ _ => true
  | _ => false

/-- Is this event a data-source close? -/
def isClose : Event → Bool
  | Event.closeFile => true
  | _ => false

/-- The file index of a batch-read event, if it is one. -/
def readIdx : Event → Option Int
  | Event.readBatch f => some f
  | _ => none

/-- The file indices for which a batch was requested, in request order. -/
def readsOf (evs : List Event) : List Int := evs.filterMap readIdx

/-- The subtrace of calculation-function invocations. -/
def callsOf (evs : List Event) : List Event := evs.filter isCall

/-- How many times the data source was asked to close. -/
def closeCount (evs : List Event) : Nat := (evs.filter isClose).length

/-- A model as produced by a successful `Model.__init__` call with HDF5 output
format and a valid IMF label.  Matches `modelInit` output definitionally. -/
def freshModel : Model :=
  { sage_file := "model.ini"
    IMF := "Chabrier"
    label := none
    sage_output_format := some "sage_hdf5"
    first_file_to_analyze := some 0
    last_file_to_analyze := some 0
    num_sage_output_files := none
    random_seed := none
    plot_toggles := []
    plots_that_need_smf := []
    sample_size := 1000
    sSFRcut := -11
    bins := fun _ => none
    props := fun _ => none
    box_size := none
    volume := none
    snapshot := none
    num_gals_all_files := none }

/-- A model constructed with the unrecognized IMF label `"Kroupa"`. -/
def kroupaModel : Model := { freshModel with IMF := "Kroupa" }

/-- A fresh model whose `box_size` attribute has been set (as the data class
does when reading the parameter file). -/
def boxModel : Model := { freshModel with box_size := some 2 }

/-- A fresh model analysing the two sub-files 0 and 1. -/
def modelRange : Model := { freshModel with last_file_to_analyze := some 1 }

/-- A data source reporting zero records for every snapshot. -/
def sourceZero : DataSource :=
  { numGals := 0, readGals := fun _ _ => none }

/-- A data source with three records, all in sub-file 0; sub-file 1 returns the
skip sentinel. -/
def sourceSkip : DataSource :=
  { numGals := 3, readGals := fun f _ => if f = 0 then some [1, 2] else none }

/-- A sample registry entry: stores the total of the batch under `"SMF"`. -/
def calcEntryA : CalcEntry :=
  { fname := "SMF"
    impl := fun mm gals snap _ =>
      { mm with
        props := storeSet mm.props (snapKey snap) "SMF"
          (PropValue.scalar (gals.foldl (fun a x => a + x) 0)) }
    kwargs := [("calc_sub_populations", PyVal.bool true)] }

/-- The concrete engine run used by the witnesses: two-file range, sub-file 1
skipped, close requested. -/
def runSkip : Model × List Event :=
  (modelRange.calc_properties_all_files sourceSkip [calcEntryA] 63 true true false
    true).getD (modelRange, [])

/-! ### Helper lemmas about the property store -/

theorem storeGet_storeSet (st : PropStore) (s p : String) (v : PropValue)
    (s2 p2 : String) :
    storeGet (storeSet st s p v) s2 p2 =
      if s2 = s ∧ p2 = p then some v else storeGet st s2 p2 := by
  by_cases hs : s2 = s
  · subst hs
    by_cases hp : p2 = p
    · subst hp
      simp [storeGet, storeSet, defaultdictGet]
    · simp [storeGet, storeSet, defaultdictGet, hp]
  · simp [storeGet, storeSet, defaultdictGet, hs]

theorem initProps_frame (s : String) (v : PropValue) (s2 p2 : String) :
    ∀ (names : List String) (st : PropStore), s2 ≠ s ∨ p2 ∉ names →
      storeGet (initProps st s names v) s2 p2 = storeGet st s2 p2 := by
  intro names
  induction names with
  | nil => intro st h; rfl
  | cons q rest ih =>
    intro st h
    have hstep : storeGet (storeSet st s q v) s2 p2 = storeGet st s2 p2 := by
      rw [storeGet_storeSet]
      rcases h with hs | hq
      · simp [hs]
      · have : p2 ≠ q := fun hc => hq (hc ▸ List.mem_cons_self q rest)
        simp [this]
    have hrest : s2 ≠ s ∨ p2 ∉ rest := by
      rcases h with hs | hq
      · exact Or.inl hs
      · exact Or.inr (fun hc => hq (List.mem_cons_of_mem q hc))
    calc storeGet (initProps (storeSet st s q v) s rest v) s2 p2
        = storeGet (storeSet st s q v) s2 p2 := ih (storeSet st s q v) hrest
      _ = storeGet st s2 p2 := hstep

theorem initProps_mem (s : String) (v : PropValue) (p : String) :
    ∀ (names : List String) (st : PropStore), p ∈ names →
      storeGet (initProps st s names v) s p = some v := by
  intro names
  induction names with
  | nil => intro st h; cases h
  | cons q rest ih =>
    intro st h
    by_cases hr : p ∈ rest
    · exact ih (storeSet st s q v) hr
    · have hpq : p = q := by
        rcases List.mem_cons.mp h with h1 | h1
        · exact h1
        · exact absurd h1 hr
      have : storeGet (initProps (storeSet st s q v) s rest v) s p =
          storeGet (storeSet st s q v) s p :=
        initProps_frame s v s p rest (storeSet st s q v) (Or.inr hr)
      rw [initProps, List.foldl_cons, ← initProps, this, storeGet_storeSet]
      simp [hpq]

/-! ### Helper lemmas about the calculation loop and its trace -/

theorem calc_properties_eq (registry : List CalcEntry) :
    ∀ (m : Model) (gals : Batch) (snap : Nat),
      m.calc_properties registry gals snap =
        (registry.foldl (fun mm e => e.impl mm gals snap e.kwargs) m,
         registry.map (fun e => Event.call e.fname gals snap e.kwargs)) := by
  induction registry with
  | nil => intro m gals snap; rfl
  | cons e rest ih =>
    intro m gals snap
    simp only [Model.calc_properties, ih, List.foldl_cons, List.map_cons]

theorem readsOf_callTrace (registry : List CalcEntry) (gals : Batch) (snap : Nat) :
    readsOf (registry.map (fun e => Event.call e.fname gals snap e.kwargs)) = [] := by
  induction registry with
  | nil => rfl
  | cons e rest ih => simp [readsOf, readIdx, List.filterMap_cons, ih]

theorem callsOf_callTrace (registry : List CalcEntry) (gals : Batch) (snap : Nat) :
    callsOf (registry.map (fun e => Event.call e.fname gals snap e.kwargs)) =
      registry.map (fun e => Event.call e.fname gals snap e.kwargs) := by
  induction registry with
  | nil => rfl
  | cons e rest ih => simp [callsOf, isCall, List.filter_cons, ih]

theorem closeCount_callTrace (registry : List CalcEntry) (gals : Batch) (snap : Nat) :
    closeCount (registry.map (fun e => Event.call e.fname gals snap e.kwargs)) = 0 := by
  induction registry with
  | nil => rfl
  | cons e rest ih => simp [closeCount, isClose, List.filter_cons, ih]

theorem readsOf_append (a b : List Event) : readsOf (a ++ b) = readsOf a ++ readsOf b :=
  List.filterMap_append a b readIdx

theorem callsOf_append (a b : List Event) : callsOf (a ++ b) = callsOf a ++ callsOf b :=
  List.filter_append a b

theorem closeCount_append (a b : List Event) :
    closeCount (a ++ b) = closeCount a + closeCount b := by
  simp [closeCount, List.filter_append]

theorem readsOf_pbarEvents (debug use_pbar tq : Bool) (total : Nat) :
    readsOf (pbarEvents debug use_pbar tq total) = [] := by
  cases debug <;> cases use_pbar <;> cases tq <;> rfl

theorem callsOf_pbarEvents (debug use_pbar tq : Bool) (total : Nat) :
    callsOf (pbarEvents debug use_pbar tq total) = [] := by
  cases debug <;> cases use_pbar <;> cases tq <;> rfl

theorem closeCount_pbarEvents (debug use_pbar tq : Bool) (total : Nat) :
    closeCount (pbarEvents debug use_pbar tq total) = 0 := by
  cases debug <;> cases use_pbar <;> cases tq <;> rfl

theorem calc_properties_snd (m : Model) (registry : List CalcEntry) (gals : Batch)
    (snap : Nat) :
    (m.calc_properties registry gals snap).2 =
      registry.map (fun e => Event.call e.fname gals snap e.kwargs) := by
  rw [calc_properties_eq]

theorem readsOf_cons_read (f : Int) (l : List Event) :
    readsOf (Event.readBatch f :: l) = f :: readsOf l := by
  simp [readsOf, readIdx, List.filterMap_cons]

theorem callsOf_cons_read (f : Int) (l : List Event) :
    callsOf (Event.readBatch f :: l) = callsOf l := by
  simp [callsOf, isCall, List.filter_cons]

theorem closeCount_cons_read (f : Int) (l : List Event) :
    closeCount (Event.readBatch f :: l) = closeCount l := by
  simp [closeCount, isClose, List.filter_cons]

/-! ### Characterization of the file loop -/

theorem engineLoop_fst (ds : DataSource) (registry : List CalcEntry) (snap : Nat) :
    ∀ (files : List Int) (m : Model),
      (engineLoop ds registry snap m files).1 =
        (files.filterMap (fun f => ds.readGals f snap)).foldl
          (fun mm g => (mm.calc_properties registry g snap).1) m := by
  intro files
  induction files with
  | nil => intro m; rfl
  | cons f rest ih =>
    intro m
    cases hg : ds.readGals f snap with
    | none => simp [engineLoop, hg, List.filterMap_cons, ih]
    | some gals => simp [engineLoop, hg, List.filterMap_cons, ih]

theorem engineLoop_reads (ds : DataSource) (registry : List CalcEntry) (snap : Nat) :
    ∀ (files : List Int) (m : Model),
      readsOf (engineLoop ds registry snap m files).2 = files := by
  intro files
  induction files with
  | nil => intro m; rfl
  | cons f rest ih =>
    intro m
    cases hg : ds.readGals f snap with
    | none =>
      simp only [engineLoop, hg]
      rw [readsOf_cons_read, ih]
    | some gals =>
      simp only [engineLoop, hg]
      rw [readsOf_cons_read, readsOf_append, calc_properties_snd, readsOf_callTrace, ih]
      rfl

theorem engineLoop_calls (ds : DataSource) (registry : List CalcEntry) (snap : Nat) :
    ∀ (files : List Int) (m : Model),
      callsOf (engineLoop ds registry snap m files).2 =
        (files.filterMap (fun f => ds.readGals f snap)).foldr
          (fun g acc =>
            registry.map (fun e => Event.call e.fname g snap e.kwargs) ++ acc)
          [] := by
  intro files
  induction files with
  | nil => intro m; rfl
  | cons f rest ih =>
    intro m
    cases hg : ds.readGals f snap with
    | none =>
      simp only [engineLoop, hg]
      rw [callsOf_cons_read, ih]
      simp [List.filterMap_cons, hg]
    | some gals =>
      simp only [engineLoop, hg]
      rw [callsOf_cons_read, callsOf_append, calc_properties_snd, callsOf_callTrace, ih]
      simp [List.filterMap_cons, hg]

theorem engineLoop_closes (ds : DataSource) (registry : List CalcEntry) (snap : Nat) :
    ∀ (files : List Int) (m : Model),
      closeCount (engineLoop ds registry snap m files).2 = 0 := by
  intro files
  induction files with
  | nil => intro m; rfl
  | cons f rest ih =>
    intro m
    cases hg : ds.readGals f snap with
    | none =>
      simp only [engineLoop, hg]
      rw [closeCount_cons_read, ih]
    | some gals =>
      simp only [engineLoop, hg]
      rw [closeCount_cons_read, closeCount_append, calc_properties_snd,
        closeCount_callTrace, ih]

/-! ### Arithmetic facts about `range` and `arange` -/

theorem intRange_sorted (a b : Int) : (intRange a b).Sorted (fun x y => x < y) := by
  unfold intRange
  rw [List.Sorted, List.pairwise_map]
  refine (List.pairwise_lt_range _).imp ?_
  intro i j hij
  show a + (i : Int) < a + (j : Int)
  omega

theorem intRange_mem (a b k : Int) : k ∈ intRange a b ↔ a ≤ k ∧ k < b := by
  unfold intRange
  simp only [List.mem_map, List.mem_range]
  constructor
  · rintro ⟨i, hi, rfl⟩
    constructor
    · omega
    · omega
  · rintro ⟨h1, h2⟩
    exact ⟨(k - a).toNat, by omega, by omega⟩

theorem arange_length (start stop step : ℚ) :
    (arange start stop step).length = Int.toNat ⌈(stop - start) / step⌉ := by
  simp only [arange, List.length_map, List.length_range]

theorem arange_get (start stop step : ℚ) (i : Nat)
    (hi : i < (arange start stop step).length) :
    (arange start stop step).get ⟨i, hi⟩ = start + (i : ℚ) * step := by
  simp only [arange, List.get_eq_getElem, List.getElem_map, List.getElem_range]

theorem arange_length_two_le (low high width : ℚ) (hw : 0 < width) (hh : low < high) :
    2 ≤ (arange low (high + width) width).length := by
  rw [arange_length]
  have hd : (1 : ℚ) < (high + width - low) / width := by
    rw [lt_div_iff₀ hw]
    linarith
  have hc : (1 : ℤ) < ⌈(high + width - low) / width⌉ := by
    rw [Int.lt_ceil]
    exact_mod_cast hd
  omega

theorem arange_elem_lt (low high width : ℚ) (hw : 0 < width) (i : Nat)
    (hi : i < (arange low (high + width) width).length) :
    low + (i : ℚ) * width < high + width := by
  rw [arange_length] at hi
  have hic : (i : ℤ) < ⌈(high + width - low) / width⌉ := by omega
  have hle : (i : ℤ) ≤ ⌈(high + width - low) / width⌉ - 1 := by omega
  have h1 : (i : ℚ) ≤ (⌈(high + width - low) / width⌉ : ℚ) - 1 := by
    calc (i : ℚ) = ((i : ℤ) : ℚ) := by push_cast; rfl
      _ ≤ ((⌈(high + width - low) / width⌉ - 1 : ℤ) : ℚ) := by exact_mod_cast hle
      _ = (⌈(high + width - low) / width⌉ : ℚ) - 1 := by push_cast; rfl
  have h2 : (⌈(high + width - low) / width⌉ : ℚ) < (high + width - low) / width + 1 :=
    Int.ceil_lt_add_one _
  have h3 : (i : ℚ) < (high + width - low) / width := by linarith
  have h4 : (i : ℚ) * width < high + width - low := by
    rw [← lt_div_iff₀ hw]
    exact h3
  linarith

/-! ### Claim theorems -/

/-- C1: for every model and snapshot, if the data source reports a total record
count of zero, `calc_properties_all_files` returns leaving the property store
(and the bin registry) exactly as it was at entry — the returned model differs
only in the `snapshot` and `num_gals_all_files` attributes the data class sets —
with an empty event trace: no calculation function invoked, no batch read,
no progress indicator opened. -/
theorem C1_empty_terminal (m : Model) (ds : DataSource) (registry : List CalcEntry)
    (snap : Nat) (close_file use_pbar debug tq : Bool) (first last : Int)
    (hf : m.first_file_to_analyze = some first)
    (hl : m.last_file_to_analyze = some last)
    (h0 : ds.numGals = 0) :
    m.calc_properties_all_files ds registry snap close_file use_pbar debug tq =
      some ({ m with snapshot := some snap, num_gals_all_files := some 0 }, [])
    ∧ ({ m with snapshot := some snap, num_gals_all_files := some 0 } : Model).props
        = m.props
    ∧ ({ m with snapshot := some snap, num_gals_all_files := some 0 } : Model).bins
        = m.bins := by
  refine ⟨?_, rfl, rfl⟩
  simp [Model.calc_properties_all_files, hf, hl, h0]

/-- Witness for C1 at a concrete model and an empty data source. -/
theorem C1_empty_terminal_witness :
    sourceZero.numGals = 0
    ∧ freshModel.calc_properties_all_files sourceZero [calcEntryA] 63 true true false
        true =
      some ({ freshModel with snapshot := some 63, num_gals_all_files := some 0 }, [])
    ∧ ({ freshModel with snapshot := some 63, num_gals_all_files := some 0 } : Model).props
        = freshModel.props :=
  ⟨rfl,
    (C1_empty_terminal freshModel sourceZero [calcEntryA] 63 true true false true 0 0
      rfl rfl rfl).1,
    (C1_empty_terminal freshModel sourceZero [calcEntryA] 63 true true false true 0 0
      rfl rfl rfl).2.1⟩

/-- C2 fails on the code: with the close flag requested and a zero record
count, `calc_properties_all_files` returns at the early zero-galaxy exit
before the `close_file` check, so the data source close operation is invoked
zero times, not once. -/
theorem C2_counterexample :
    sourceZero.numGals = 0
    ∧ (freshModel.calc_properties_all_files sourceZero [calcEntryA] 63 true true false
        true).map (fun r => closeCount r.2) = some 0 :=
  ⟨rfl, rfl⟩

/-- C2 (amended): when the close flag is requested, the close operation of the data source is invoked exactly once if the total record count is non-zero; when
the count is zero the call returns early and close is not invoked at all. -/
theorem C2_close_amended (m : Model) (ds : DataSource) (registry : List CalcEntry)
    (snap : Nat) (use_pbar debug tq : Bool) (first last : Int)
    (r : Model × List Event)
    (hf : m.first_file_to_analyze = some first)
    (hl : m.last_file_to_analyze = some last)
    (hr : m.calc_properties_all_files ds registry snap true use_pbar debug tq = some r) :
    closeCount r.2 = if ds.numGals = 0 then 0 else 1 := by
  simp only [Model.calc_properties_all_files, hf, hl] at hr
  by_cases h0 : ds.numGals = 0
  · rw [if_pos h0] at hr
    have hre := Option.some.inj hr
    rw [if_pos h0, ← hre]
    rfl
  · rw [if_neg h0] at hr
    have hre := Option.some.inj hr
    rw [if_neg h0, ← hre]
    simp only [if_true]
    rw [closeCount_append, closeCount_append, closeCount_pbarEvents,
      engineLoop_closes]
    rfl

/-- Witness for C2 (amended): a non-zero-count run with the close flag set
closes exactly once. -/
theorem C2_close_amended_witness :
    sourceSkip.numGals ≠ 0
    ∧ closeCount runSkip.2 = if sourceSkip.numGals = 0 then 0 else 1 :=
  ⟨by decide,
    C2_close_amended modelRange sourceSkip [calcEntryA] 63 true false true
      0 1 runSkip rfl rfl rfl⟩

/-- C3 fails on the code in its second half: the properties mapping is a
`defaultdict(dict)`, so looking up a snapshot key for which no `init_*` call
was ever made yields an empty mapping instead of failing with a not-found
error.  Here the store of a freshly constructed model is probed at an
uninitialized snapshot key. -/
theorem C3_counterexample :
    modelInit "model.ini" (some "sage_hdf5") none (some 0) (some 0) none none
        "Chabrier" [] [] 1000 (-11) = Except.ok freshModel
    ∧ defaultdictGet freshModel.props "snapshot_63" = emptyPropDict :=
  ⟨rfl, rfl⟩

/-- C3 (amended): reading a property name that was never initialized yields a
not-found error at the inner dictionary (`none`), but the outer snapshot-key
lookup never fails: for a freshly constructed model every accumulator lookup is
not-found while the snapshot-key lookup yields the empty mapping. -/
theorem C3_uninitialized_lookup (sf : String) (fmt lbl : Option String)
    (ff lf nf rs : Option Int) (imf : String) (pt : List (String × Bool))
    (ps : List String) (ss : Nat) (cut : ℚ) (m : Model)
    (hm : modelInit sf fmt lbl ff lf nf rs imf pt ps ss cut = Except.ok m)
    (s p : String) :
    storeGet m.props s p = none
    ∧ defaultdictGet m.props s = emptyPropDict := by
  unfold modelInit at hm
  by_cases h1 : nf = none ∧ fmt = some "sage_binary"
  · rw [if_pos h1] at hm
    exact Except.noConfusion hm
  · rw [if_neg h1] at hm
    by_cases h2 : (ff = none ∨ lf = none) ∧ fmt = some "sage_binary"
    · rw [if_pos h2] at hm
      exact Except.noConfusion hm
    · rw [if_neg h2] at hm
      have hrec := Except.ok.inj hm
      constructor
      · rw [← hrec]
        rfl
      · rw [← hrec]
        rfl

/-- Witness for C3 (amended), at the fresh model and an arbitrary key pair. -/
theorem C3_uninitialized_lookup_witness :
    storeGet freshModel.props "snapshot_63" "SMF" = none
    ∧ defaultdictGet freshModel.props "snapshot_63" = emptyPropDict :=
  C3_uninitialized_lookup "model.ini" (some "sage_hdf5") none (some 0) (some 0) none
    none "Chabrier" [] [] 1000 (-11) freshModel rfl "snapshot_63" "SMF"

/-- C4 fails on the code: `Model.__init__` writes the IMF argument directly to
the private attribute, bypassing the validating setter, so construction with
the unrecognized label `"Kroupa"` succeeds and the invalid label is stored. -/
theorem C4_counterexample :
    modelInit "model.ini" (some "sage_hdf5") none (some 0) (some 0) none none
        "Kroupa" [] [] 1000 (-11) = Except.ok kroupaModel
    ∧ kroupaModel.IMF = "Kroupa"
    ∧ "Kroupa" ∉ allowed_IMF :=
  ⟨rfl, rfl, by decide⟩

/-- C4 (amended): construction does not validate the IMF argument.  Whenever
the binary-format file-count and file-range checks pass, construction succeeds
for any IMF string and stores it verbatim; the two-label validation applies
only to later assignments through the IMF setter. -/
theorem C4_construction_stores_imf (sf : String) (fmt lbl : Option String)
    (ff lf nf rs : Option Int) (imf : String) (pt : List (String × Bool))
    (ps : List String) (ss : Nat) (cut : ℚ)
    (h1 : ¬(nf = none ∧ fmt = some "sage_binary"))
    (h2 : ¬((ff = none ∨ lf = none) ∧ fmt = some "sage_binary")) :
    (modelInit sf fmt lbl ff lf nf rs imf pt ps ss cut).toOption.map Model.IMF
      = some imf := by
  unfold modelInit
  rw [if_neg h1, if_neg h2]
  rfl

/-- Witness for C4 (amended) at an unrecognized IMF label. -/
theorem C4_construction_stores_imf_witness :
    ¬((none : Option Int) = none ∧ (some "sage_hdf5" : Option String) = some "sage_binary")
    ∧ (modelInit "model.ini" (some "sage_hdf5") none (some 0) (some 0) none none
        "Kroupa" [] [] 1000 (-11)).toOption.map Model.IMF = some "Kroupa" :=
  ⟨by decide,
    C4_construction_stores_imf "model.ini" (some "sage_hdf5") none (some 0) (some 0)
      none none "Kroupa" [] [] 1000 (-11) (by decide) (by decide)⟩

/-- C6: with `box_size` set, assigning `vol` to the volume property raises
exactly when `vol` exceeds `box_size ^ 3`, leaving the stored volume unchanged;
otherwise (including equality with `box_size ^ 3`) the stored volume becomes
`vol`. -/
theorem C6_volume_setter (m : Model) (b vol : ℚ) (hb : m.box_size = some b) :
    (b ^ 3 < vol → m.setVolume vol = (m, some "ValueError"))
    ∧ (vol ≤ b ^ 3 → m.setVolume vol = ({ m with volume := some vol }, none)) := by
  constructor
  · intro h
    simp [Model.setVolume, hb, h]
  · intro h
    simp [Model.setVolume, hb, not_lt.mpr h]

/-- Witness for C6: over-volume rejected with state kept, boundary volume
(`box_size ^ 3` itself) accepted and stored. -/
theorem C6_volume_setter_witness :
    boxModel.box_size = some 2
    ∧ boxModel.setVolume 9 = (boxModel, some "ValueError")
    ∧ boxModel.setVolume 8 = ({ boxModel with volume := some 8 }, none) :=
  ⟨rfl, (C6_volume_setter boxModel 2 9 rfl).1 (by norm_num),
    (C6_volume_setter boxModel 2 8 rfl).2 (by norm_num)⟩

/-- C7: assigning to the IMF property raises exactly when the label is outside
`{"Chabrier", "Salpeter"}`; the stored IMF is unchanged on the error path and
becomes the assigned label on the success path. -/
theorem C7_imf_setter (m : Model) (imf : String) :
    ((m.setIMF imf).2 ≠ none ↔ imf ∉ allowed_IMF)
    ∧ (imf ∉ allowed_IMF → m.setIMF imf = (m, some "ValueError"))
    ∧ (imf ∈ allowed_IMF → m.setIMF imf = ({ m with IMF := imf }, none)) := by
  by_cases h : imf ∈ allowed_IMF
  · simp [Model.setIMF, h]
  · simp [Model.setIMF, h]

/-- Witness for C7: an unrecognized label is rejected with state kept, a
recognized one is stored. -/
theorem C7_imf_setter_witness :
    "Kroupa" ∉ allowed_IMF ∧ "Salpeter" ∈ allowed_IMF
    ∧ freshModel.setIMF "Kroupa" = (freshModel, some "ValueError")
    ∧ freshModel.setIMF "Salpeter" = ({ freshModel with IMF := "Salpeter" }, none) :=
  ⟨by decide, by decide,
    (C7_imf_setter freshModel "Kroupa").2.1 (by decide),
    (C7_imf_setter freshModel "Salpeter").2.2 (by decide)⟩

/-- C9: for every batch, `calc_properties` invokes every entry of the registry
exactly once, in the insertion order of the registry, with positional arguments
(model, batch, snapshot) followed by the bound keyword arguments of the entry: the
invocation trace is exactly the registry mapped to call events, and the
resulting model is the left fold of the entry functions over the incoming
model. -/
theorem C9_invocation_protocol (m : Model) (registry : List CalcEntry) (gals : Batch)
    (snap : Nat) :
    (m.calc_properties registry gals snap).2 =
      registry.map (fun e => Event.call e.fname gals snap e.kwargs)
    ∧ (m.calc_properties registry gals snap).1 =
      registry.foldl (fun mm e => e.impl mm gals snap e.kwargs) m := by
  rw [calc_properties_eq]
  exact ⟨rfl, rfl⟩

/-- C5: for `bin_width > 0` and `bin_high > bin_low`, `init_binned_properties`
stores under `bin_name` the arithmetic sequence with first element `bin_low`,
step `bin_width` and elements strictly below `bin_high + bin_width` (at least
two edges), and stores under the snapshot key, for every listed property name,
a zero-filled accumulator whose length is the number of bin edges minus one. -/
theorem C5_init_binned (m : Model) (bin_low bin_high bin_width : ℚ)
    (bin_name : String) (property_names : List String) (snap : Nat) (p : String)
    (i : Nat)
    (hw : 0 < bin_width) (hh : bin_low < bin_high) (hp : p ∈ property_names)
    (hi : i < (arange bin_low (bin_high + bin_width) bin_width).length) :
    (m.init_binned_properties bin_low bin_high bin_width bin_name property_names
        snap).bins bin_name
      = some (arange bin_low (bin_high + bin_width) bin_width)
    ∧ 2 ≤ (arange bin_low (bin_high + bin_width) bin_width).length
    ∧ (arange bin_low (bin_high + bin_width) bin_width).get ⟨i, hi⟩
        = bin_low + (i : ℚ) * bin_width
    ∧ bin_low ≤ (arange bin_low (bin_high + bin_width) bin_width).get ⟨i, hi⟩
    ∧ (arange bin_low (bin_high + bin_width) bin_width).get ⟨i, hi⟩
        < bin_high + bin_width
    ∧ storeGet (m.init_binned_properties bin_low bin_high bin_width bin_name
          property_names snap).props (snapKey snap) p
        = some (PropValue.arr (List.replicate
            ((arange bin_low (bin_high + bin_width) bin_width).length - 1) 0)) := by
  have hget := arange_get bin_low (bin_high + bin_width) bin_width i hi
  refine ⟨?_, arange_length_two_le bin_low bin_high bin_width hw hh, hget, ?_, ?_, ?_⟩
  · simp [Model.init_binned_properties]
  · rw [hget]
    have : (0 : ℚ) ≤ (i : ℚ) * bin_width :=
      mul_nonneg (Nat.cast_nonneg i) (le_of_lt hw)
    linarith
  · rw [hget]
    exact arange_elem_lt bin_low bin_high bin_width hw i hi
  · simp only [Model.init_binned_properties]
    exact initProps_mem (snapKey snap) _ p property_names m.props hp

/-- Witness for C5 at bins `[0, 1, 2]` derived from low 0, high 2, width 1. -/
theorem C5_init_binned_witness :
    (0 : ℚ) < 1 ∧ (0 : ℚ) < 2 ∧ "SMF" ∈ ["SMF"]
    ∧ (freshModel.init_binned_properties 0 2 1 "mass_bins" ["SMF"] 63).bins "mass_bins"
        = some (arange 0 (2 + 1) 1)
    ∧ 2 ≤ (arange 0 (2 + 1) 1).length
    ∧ storeGet (freshModel.init_binned_properties 0 2 1 "mass_bins" ["SMF"] 63).props
          (snapKey 63) "SMF"
        = some (PropValue.arr (List.replicate ((arange 0 (2 + 1) 1).length - 1) 0)) := by
  have h := C5_init_binned freshModel 0 2 1 "mass_bins" ["SMF"] 63 "SMF" 0
    (by norm_num) (by norm_num) (by simp)
    (by rw [arange_length]; norm_num)
  exact ⟨by norm_num, by norm_num, by simp, h.1, h.2.1, h.2.2.2.2.2⟩

/-- C8: when the record count is non-zero, the engine requests one batch per
file index from `first_file_to_analyze` to `last_file_to_analyze` inclusive, in
strictly ascending order; skipped files (the `None` sentinel) contribute no
calculation-function invocation and leave the model untouched, so the call
trace and the final model are exactly those obtained from the non-skipped
batches in order. -/
theorem C8_iteration (m : Model) (ds : DataSource) (registry : List CalcEntry)
    (snap : Nat) (close_file use_pbar debug tq : Bool) (first last : Int) (k : Int)
    (r : Model × List Event)
    (hf : m.first_file_to_analyze = some first)
    (hl : m.last_file_to_analyze = some last)
    (h0 : ds.numGals ≠ 0)
    (hr : m.calc_properties_all_files ds registry snap close_file use_pbar debug tq
        = some r) :
    readsOf r.2 = intRange first (last + 1)
    ∧ (readsOf r.2).Sorted (fun x y => x < y)
    ∧ (k ∈ readsOf r.2 ↔ first ≤ k ∧ k ≤ last)
    ∧ callsOf r.2 = ((intRange first (last + 1)).filterMap
          (fun f => ds.readGals f snap)).foldr
        (fun g acc =>
          registry.map (fun e => Event.call e.fname g snap e.kwargs) ++ acc) []
    ∧ r.1 = ((intRange first (last + 1)).filterMap
          (fun f => ds.readGals f snap)).foldl
        (fun mm g => (mm.calc_properties registry g snap).1)
        { m with snapshot := some snap, num_gals_all_files := some ds.numGals } := by
  simp only [Model.calc_properties_all_files, hf, hl] at hr
  rw [if_neg h0] at hr
  have hre := Option.some.inj hr
  have hreads : readsOf r.2 = intRange first (last + 1) := by
    rw [← hre]
    cases close_file with
    | false =>
      simp only [Bool.false_eq_true, if_false]
      rw [readsOf_append, readsOf_pbarEvents, engineLoop_reads]
      rfl
    | true =>
      simp only [if_true]
      rw [readsOf_append, readsOf_append, readsOf_pbarEvents, engineLoop_reads]
      simp [readsOf, readIdx, List.filterMap_cons]
  refine ⟨hreads, ?_, ?_, ?_, ?_⟩
  · rw [hreads]
    exact intRange_sorted first (last + 1)
  · rw [hreads, intRange_mem]
    omega
  · rw [← hre]
    cases close_file with
    | false =>
      simp only [Bool.false_eq_true, if_false]
      rw [callsOf_append, callsOf_pbarEvents, engineLoop_calls]
      rfl
    | true =>
      simp only [if_true]
      rw [callsOf_append, callsOf_append, callsOf_pbarEvents, engineLoop_calls]
      simp [callsOf, isCall, List.filter_cons]
  · rw [hf, hl, ← hre]
    cases close_file with
    | false =>
      simp only [Bool.false_eq_true, if_false]
      exact engineLoop_fst ds registry snap (intRange first (last + 1)) _
    | true =>
      simp only [if_true]
      exact engineLoop_fst ds registry snap (intRange first (last + 1)) _

/-- Witness for C8: a two-file range with sub-file 1 skipped; the reads cover
exactly files 0 and 1 in order and only file 0 produces invocations. -/
theorem C8_iteration_witness :
    sourceSkip.numGals ≠ 0
    ∧ readsOf runSkip.2 = intRange 0 (1 + 1)
    ∧ (readsOf runSkip.2).Sorted (fun x y => x < y)
    ∧ ((1 : Int) ∈ readsOf runSkip.2 ↔ (0 : Int) ≤ 1 ∧ (1 : Int) ≤ 1)
    ∧ callsOf runSkip.2 = ((intRange 0 (1 + 1)).filterMap
          (fun f => sourceSkip.readGals f 63)).foldr
        (fun g acc =>
          [calcEntryA].map (fun e => Event.call e.fname g 63 e.kwargs) ++ acc) []
    ∧ runSkip.1 = ((intRange 0 (1 + 1)).filterMap
          (fun f => sourceSkip.readGals f 63)).foldl
        (fun mm g => (mm.calc_properties [calcEntryA] g 63).1)
        { modelRange with
          snapshot := some 63
          num_gals_all_files := some sourceSkip.numGals } := by
  have h := C8_iteration modelRange sourceSkip [calcEntryA] 63 true true false true
    0 1 1 runSkip rfl rfl (by decide) rfl
  exact ⟨by decide, h.1, h.2.1, h.2.2.1, h.2.2.2.1, h.2.2.2.2⟩

/-- C10: each `init_*` routine modifies only the accumulators of the listed
property names under the given snapshot key (and, for the binned variant, the
bin registry entry for the given bin name): any accumulator under a different
snapshot key or with a name outside the list is unchanged, as is any other bin
registry entry; the scatter and single variants leave the bin registry
untouched entirely. -/
theorem C10_init_frame (m : Model) (bin_low bin_high bin_width : ℚ)
    (bin_name : String) (property_names : List String) (snap : Nat)
    (s p b : String)
    (hsp : s ≠ snapKey snap ∨ p ∉ property_names) (hb : b ≠ bin_name) :
    storeGet (m.init_binned_properties bin_low bin_high bin_width bin_name
        property_names snap).props s p = storeGet m.props s p
    ∧ (m.init_binned_properties bin_low bin_high bin_width bin_name property_names
        snap).bins b = m.bins b
    ∧ storeGet (m.init_scatter_properties property_names snap).props s p
        = storeGet m.props s p
    ∧ (m.init_scatter_properties property_names snap).bins = m.bins
    ∧ storeGet (m.init_single_properties property_names snap).props s p
        = storeGet m.props s p
    ∧ (m.init_single_properties property_names snap).bins = m.bins := by
  refine ⟨?_, ?_, ?_, rfl, ?_, rfl⟩
  · simp only [Model.init_binned_properties]
    exact initProps_frame (snapKey snap) _ s p property_names m.props hsp
  · simp only [Model.init_binned_properties]
    simp [hb]
  · simp only [Model.init_scatter_properties]
    exact initProps_frame (snapKey snap) _ s p property_names m.props hsp
  · simp only [Model.init_single_properties]
    exact initProps_frame (snapKey snap) _ s p property_names m.props hsp

/-- Witness for C10 at a different snapshot key, a name outside the list and a
different bin name. -/
theorem C10_init_frame_witness :
    ("snapshot_7" ≠ snapKey 63 ∨ "BTF" ∉ ["SMF"]) ∧ "other_bins" ≠ "mass_bins"
    ∧ storeGet (freshModel.init_binned_properties 0 2 1 "mass_bins" ["SMF"] 63).props
        "snapshot_7" "BTF" = storeGet freshModel.props "snapshot_7" "BTF"
    ∧ (freshModel.init_binned_properties 0 2 1 "mass_bins" ["SMF"] 63).bins "other_bins"
        = freshModel.bins "other_bins"
    ∧ storeGet (freshModel.init_scatter_properties ["SMF"] 63).props "snapshot_7" "BTF"
        = storeGet freshModel.props "snapshot_7" "BTF"
    ∧ (freshModel.init_scatter_properties ["SMF"] 63).bins = freshModel.bins
    ∧ storeGet (freshModel.init_single_properties ["SMF"] 63).props "snapshot_7" "BTF"
        = storeGet freshModel.props "snapshot_7" "BTF"
    ∧ (freshModel.init_single_properties ["SMF"] 63).bins = freshModel.bins := by
  have h := C10_init_frame freshModel 0 2 1 "mass_bins" ["SMF"] 63 "snapshot_7" "BTF"
    "other_bins" (Or.inl (by decide)) (by decide)
  exact ⟨Or.inl (by decide), by decide, h.1, h.2.1, h.2.2.1, h.2.2.2.1, h.2.2.2.2.1,
    h.2.2.2.2.2⟩

end SageAnalysis
